import Mathlib

/-!
Verification of the discord-presence LSP server (xhyrom/zed-discord-presence).

This file gives a shallow embedding, in Lean 4, of the parts of the Rust
source that the checked claims concern:

* `lsp/src/discord.rs` — the connection manager (`Discord`): connect,
  connect_with_retry (exponential backoff), reconnect, kill, clear_activity,
  change_activity, change_activity_with_reconnect.
* `lsp/src/service/presence_service.rs` — `PresenceService::shutdown`.
* `lsp/src/idle.rs` + `lsp/src/activity/*` — the idle timer's fire path and
  idle activity-field resolution.
* `lsp/src/util/placeholders.rs`, `lsp/src/util/mod.rs`, `lsp/src/document.rs`
  — the placeholder engine and document path accessors.
* `lsp/src/config/*` — configuration data model and JSON update.

External I/O (the Discord IPC socket, the filesystem, tokio timers) is made
explicit: each fallible IPC primitive takes its outcome from an environment
record `IpcEnv`, and each connection-manager operation returns, besides its
`Result`, the list of externally visible actions it performed (connect
attempts, sleeps with their durations, closes, activity updates). Machine
integers (`u32`, `u64`) are modelled as `Nat`; the values involved (retry
counters, millisecond delays, byte counts) never overflow in the source's
ranges.
-/

/-- Error type of the LSP crate, from `lsp/src/error.rs` (`PresenceError`).
Only the variants reachable in the embedded code paths carry data here; the
`Io`/`JsonParse`/`UrlDecode` variants wrap external library errors and are
represented by their message-free constructors. -/
inductive PresenceError where
  | Discord (msg : String)
  | Config (msg : String)
  | Io
  | JsonParse
  | UrlDecode
deriving DecidableEq, Repr

/-- Maximum number of connection retries (`MAX_RETRIES` in `discord.rs`). -/
def MAX_RETRIES : Nat := 5

/-- Initial delay between retries in milliseconds (`INITIAL_DELAY_MS`). -/
def INITIAL_DELAY_MS : Nat := 500

/-- Maximum delay between retries in milliseconds (`MAX_DELAY_MS`). -/
def MAX_DELAY_MS : Nat := 10000

/-- State of the `Discord` struct in `discord.rs`.

`client` models whether the `client : Option<Mutex<DiscordIpcClient>>` cell
is `Some` (it becomes `Some` only in `create_client` and is never cleared);
`connected` is the `connected : Arc<AtomicBool>` flag. The
`start_timestamp` field only feeds the presence payload and does not affect
any control flow in the claims, so it is omitted. -/
structure Discord where
  client : Bool
  connected : Bool
deriving DecidableEq, Repr

/-- `Discord::new()`: no client yet, not connected. -/
def Discord.init : Discord := { client := false, connected := false }

/-- `Discord::is_connected`. -/
def Discord.is_connected (s : Discord) : Bool := s.connected

/-- `Discord::create_client`: installs the IPC client cell. -/
def Discord.create_client (s : Discord) : Discord := { s with client := true }

/-- Externally visible actions of the connection manager: an underlying
`client.connect()` call, a `tokio::time::sleep` of the given number of
milliseconds, a `client.close()` call, a `client.set_activity` call, a
`client.clear_activity` call. -/
inductive DiscordAction where
  | connectAttempt
  | sleep (ms : Nat)
  | close
  | setActivity
  | clearActivity
deriving DecidableEq, Repr

/-- Environment: the outcomes the external Discord IPC endpoint gives to
the process. `connectOk i` is the outcome of the `i`-th underlying
`client.connect()` call (counted across the whole execution); the other
fields are the outcomes of `close`, `set_activity` and `clear_activity`. -/
structure IpcEnv where
  connectOk : Nat → Bool
  closeOk : Bool
  setActivityOk : Bool
  clearActivityOk : Bool

/-- Result of running one connection-manager operation: the updated
`Discord` state, the index of the next unused `connectOk` outcome, the list
of externally visible actions performed, and the returned `Result`. -/
structure DiscordStep where
  discord : Discord
  calls : Nat
  log : List DiscordAction
  result : Except PresenceError Unit
deriving Repr

/-- Error produced by `Discord::get_client` when `create_client` was never
called (`discord.rs` line 156-162). -/
def clientNotInitialized : PresenceError :=
  .Discord "Discord client not initialized"

/-- `Discord::connect` (`discord.rs` lines 80-94): obtain the client (error
if the cell is unset, leaving all state untouched), then call the underlying
`client.connect()`; on failure store `false` into `connected` and return a
Discord error, on success store `true` and return `Ok`. -/
def Discord.connect (s : Discord) (env : IpcEnv) (n : Nat) : DiscordStep :=
  if s.client = false then
    { discord := s, calls := n, log := [], result := .error clientNotInitialized }
  else if env.connectOk n then
    { discord := { s with connected := true }, calls := n + 1,
      log := [.connectAttempt], result := .ok () }
  else
    { discord := { s with connected := false }, calls := n + 1,
      log := [.connectAttempt],
      result := .error (.Discord "Failed to connect to Discord IPC") }

/-- The loop of `Discord::connect_with_retry` (`discord.rs` lines 99-130),
recursing on the number of attempts still allowed. On a failed attempt that
is not the last one, sleep the current delay and double it, capping at
`MAX_DELAY_MS`; on the last failed attempt return that attempt's error.
The `0` case is the source's unreachable fallback
`Err("Failed to connect after all retries")` after the `for` loop. -/
def connectWithRetryAux (env : IpcEnv) :
    Nat → Discord → Nat → Nat → DiscordStep
  | 0, s, n, _ =>
    { discord := s, calls := n, log := [],
      result := .error (.Discord "Failed to connect after all retries") }
  | remaining + 1, s, n, delayMs =>
    let step := s.connect env n
    match step.result with
    | .ok () => step
    | .error e =>
      if remaining = 0 then
        { step with result := .error e }
      else
        let rest := connectWithRetryAux env remaining step.discord step.calls
          (min (delayMs * 2) MAX_DELAY_MS)
        { discord := rest.discord, calls := rest.calls,
          log := step.log ++ [.sleep delayMs] ++ rest.log,
          result := rest.result }

/-- `Discord::connect_with_retry`: up to `MAX_RETRIES` attempts starting
with a delay of `INITIAL_DELAY_MS`. -/
def Discord.connect_with_retry (s : Discord) (env : IpcEnv) (n : Nat) : DiscordStep :=
  connectWithRetryAux env MAX_RETRIES s n INITIAL_DELAY_MS

/-- `Discord::kill` (`discord.rs` lines 144-154): store `false` into
`connected`, then obtain the client (error if unset) and call the underlying
`client.close()`. -/
def Discord.kill (s : Discord) (env : IpcEnv) (n : Nat) : DiscordStep :=
  let s' : Discord := { s with connected := false }
  if s'.client = false then
    { discord := s', calls := n, log := [], result := .error clientNotInitialized }
  else if env.closeOk then
    { discord := s', calls := n, log := [.close], result := .ok () }
  else
    { discord := s', calls := n, log := [.close],
      result := .error (.Discord "Failed to close Discord connection") }

/-- `Discord::reconnect` (`discord.rs` lines 134-142): store `false` into
`connected`, best-effort `kill` (result discarded), then
`connect_with_retry`. -/
def Discord.reconnect (s : Discord) (env : IpcEnv) (n : Nat) : DiscordStep :=
  let s' : Discord := { s with connected := false }
  let k := s'.kill env n
  let c := k.discord.connect_with_retry env k.calls
  { discord := c.discord, calls := c.calls, log := k.log ++ c.log,
    result := c.result }

/-- `Discord::clear_activity` (`discord.rs` lines 165-176): obtain the
client (error if unset), then call the underlying `client.clear_activity()`.
The `connected` flag is not touched. -/
def Discord.clear_activity (s : Discord) (env : IpcEnv) (n : Nat) : DiscordStep :=
  if s.client = false then
    { discord := s, calls := n, log := [], result := .error clientNotInitialized }
  else if env.clearActivityOk then
    { discord := s, calls := n, log := [.clearActivity], result := .ok () }
  else
    { discord := s, calls := n, log := [.clearActivity],
      result := .error (.Discord "Failed to clear activity") }

/-- `Discord::change_activity` (`discord.rs` lines 183-226): obtain the
client (error if unset), then build the activity payload and call the
underlying `client.set_activity`. The six field arguments and the git
remote URL only shape the payload, never the control flow or the state, and
are therefore carried but unused; the `i64::try_from` of the process-start
timestamp cannot fail for any realizable start time and is modelled as
succeeding. The `connected` flag is not touched here (only
`change_activity_with_reconnect` clears it). -/
def Discord.change_activity (s : Discord)
    (_state _details _large_image _large_text _small_image _small_text
      _git_remote_url : Option String)
    (env : IpcEnv) (n : Nat) : DiscordStep :=
  if s.client = false then
    { discord := s, calls := n, log := [], result := .error clientNotInitialized }
  else if env.setActivityOk then
    { discord := s, calls := n, log := [.setActivity], result := .ok () }
  else
    { discord := s, calls := n, log := [.setActivity],
      result := .error (.Discord "Failed to set activity") }

/-- `Discord::change_activity_with_reconnect` (`discord.rs` lines 232-272):
if not connected, `reconnect` first and propagate a reconnection failure
without sending; then `change_activity`, and on its failure store `false`
into `connected` before returning the error. -/
def Discord.change_activity_with_reconnect (s : Discord)
    (state details large_image large_text small_image small_text
      git_remote_url : Option String)
    (env : IpcEnv) (n : Nat) : DiscordStep :=
  let pre : DiscordStep :=
    if s.connected = false then
      s.reconnect env n
    else
      { discord := s, calls := n, log := [], result := .ok () }
  match pre.result with
  | .error e => { pre with result := .error e }
  | .ok () =>
    let c := pre.discord.change_activity state details large_image large_text
      small_image small_text git_remote_url env pre.calls
    match c.result with
    | .ok () =>
      { discord := c.discord, calls := c.calls, log := pre.log ++ c.log,
        result := .ok () }
    | .error e =>
      { discord := { c.discord with connected := false }, calls := c.calls,
        log := pre.log ++ c.log, result := .error e }

/-- `PresenceService::shutdown` (`presence_service.rs` lines 68-72): lock
the shared Discord cell and `discord.kill().await?` — the `?` propagates a
kill error; on success return `Ok(())`. -/
def PresenceService.shutdown (s : Discord) (env : IpcEnv) (n : Nat) : DiscordStep :=
  let k := s.kill env n
  match k.result with
  | .ok () => { k with result := .ok () }
  | .error e => { k with result := .error e }

/-!
## Strings

Rust `str::replace`, `str::to_lowercase`, and the crate's
`capitalize_first_letter` are modelled on the character list underlying a
Lean `String`. Core `String.replace`/`String.map` are avoided because their
position-based implementations do not reduce in the kernel. Unicode caveat:
Rust's `to_lowercase`/`to_uppercase` are full Unicode mappings while
`Char.toLower`/`Char.toUpper` are ASCII; placeholder names and all strings
in the claims are ASCII, where the two agree.
-/

/-- `str::replace` on character lists: scan left to right, replacing each
non-overlapping occurrence of `pat` and continuing after it. The fuel is
the list length, which bounds the number of scanning steps; a step always
consumes at least one character, so the fuel never runs out. An empty
pattern is never used by the placeholder engine and leaves the text
unchanged here. -/
def listReplaceAux (pat rep : List Char) : Nat → List Char → List Char
  | 0, l => l
  | _ + 1, [] => []
  | fuel + 1, c :: rest =>
    if pat.isPrefixOf (c :: rest) ∧ pat ≠ [] then
      rep ++ listReplaceAux pat rep fuel ((c :: rest).drop pat.length)
    else
      c :: listReplaceAux pat rep fuel rest

/-- Rust `text.replace(pat, rep)`. -/
def strReplace (text pat rep : String) : String :=
  ⟨listReplaceAux pat.data rep.data text.data.length text.data⟩

/-- Rust `str::to_lowercase` (ASCII range). -/
def strToLower (s : String) : String := ⟨s.data.map Char.toLower⟩

/-- `capitalize_first_letter` from `lsp/src/util/mod.rs`: uppercase the
first character, keep the rest. -/
def capitalize_first_letter (s : String) : String :=
  match s.data with
  | [] => ""
  | c :: rest => ⟨Char.toUpper c :: rest⟩

/-- Value of a hexadecimal digit character, if it is one. -/
def hexDigit (c : Char) : Option Nat :=
  if '0' ≤ c ∧ c ≤ '9' then some (c.toNat - '0'.toNat)
  else if 'a' ≤ c ∧ c ≤ 'f' then some (c.toNat - 'a'.toNat + 10)
  else if 'A' ≤ c ∧ c ≤ 'F' then some (c.toNat - 'A'.toNat + 10)
  else none

/-- Percent-decoding as done by `urlencoding::decode`: each `%XY` with two
hex digits becomes the byte `0xXY`, malformed `%` sequences are kept
literally. The crate's only failure mode, invalid UTF-8 in the decoded
bytes, is unrepresentable in this character-level model, so decoding is
total here. -/
def urlDecodeAux : List Char → List Char
  | [] => []
  | '%' :: a :: b :: rest =>
    match hexDigit a, hexDigit b with
    | some x, some y => Char.ofNat (16 * x + y) :: urlDecodeAux rest
    | _, _ => '%' :: urlDecodeAux (a :: b :: rest)
  | c :: rest => c :: urlDecodeAux rest

/-- `urlencoding::decode` on a string. -/
def urlDecode (s : String) : String := ⟨urlDecodeAux s.data⟩

/-!
## Paths and documents (`lsp/src/document.rs`)

A filesystem path is modelled as its list of normal components, rooted at
`/` (document paths come from `Url::path()` and are absolute; `.`/`..`
components do not occur there).
-/

/-- An absolute path: `⟨["home", "u", "proj", "main.rs"]⟩` is
`/home/u/proj/main.rs`; `⟨[]⟩` is the root `/`. -/
structure RPath where
  components : List String
deriving DecidableEq, Repr

/-- Rust `Path::file_name`: the last component, `None` for the root. -/
def RPath.fileName (p : RPath) : Option String := p.components.getLast?

/-- Rust `Path::parent`: drop the last component, `None` for the root. -/
def RPath.parent (p : RPath) : Option RPath :=
  match p.components with
  | [] => none
  | _ :: _ => some ⟨p.components.dropLast⟩

/-- Rust `Path::strip_prefix` for absolute paths: the remaining components
if `base`'s components are a prefix, else `None` (an `Err` in Rust). -/
def RPath.stripPrefixOf (p base : RPath) : Option (List String) :=
  if base.components.isPrefixOf p.components then
    some (p.components.drop base.components.length)
  else
    none

/-- `to_str` of an absolute path: `/`-joined components with a leading
slash; the root renders as `/`. -/
def RPath.render (p : RPath) : String :=
  match p.components with
  | [] => "/"
  | _ => p.components.foldl (fun acc c => acc ++ "/" ++ c) ""

/-- `to_str` of a relative path (the result of `strip_prefix`):
`/`-joined components without a leading slash. -/
def relRender : List String → String
  | [] => ""
  | c :: rest => rest.foldl (fun acc x => acc ++ "/" ++ x) c

/-- Characters after the last `.` of a list, if any `.` occurs. -/
def afterLastDot (l : List Char) : Option (List Char) :=
  l.foldl
    (fun acc c =>
      if c = '.' then some []
      else match acc with
        | some xs => some (xs ++ [c])
        | none => none)
    none

/-- Rust `Path::extension` rendered as a string (`""` when absent): the
part of the file name after its last `.`, where a leading `.` (hidden
files) does not count as a separator. -/
def RPath.extension (p : RPath) : String :=
  match p.fileName with
  | none => ""
  | some f =>
    match f.data with
    | [] => ""
    | _ :: rest =>
      match afterLastDot rest with
      | some ext => ⟨ext⟩
      | none => ""

/-- `Document` from `lsp/src/document.rs`: the file path, the workspace
root, and the optional 0-indexed line number. `fs_size` is not a struct
field in the source; it models the ambient filesystem's answer to
`std::fs::metadata(&self.path).map(|m| m.len())` for this path (`none` when
`metadata` fails), which `get_file_size` reads. -/
structure Document where
  path : RPath
  workspace_root : RPath
  line_number : Option Nat
  fs_size : Option Nat
deriving DecidableEq, Repr

/-- `Document::get_line_number`. -/
def Document.get_line_number (d : Document) : Option Nat := d.line_number

/-- `Document::get_filename`: the path's file name (error `"No filename
found"` when absent), percent-decoded. The source's other error cases —
non-UTF-8 `OsStr` and invalid UTF-8 after decoding — are unrepresentable in
the character-level model. -/
def Document.get_filename (d : Document) : Except PresenceError String :=
  match d.path.fileName with
  | none => .error (.Config "No filename found")
  | some f => .ok (urlDecode f)

/-- `Document::get_extension`. -/
def Document.get_extension (d : Document) : String := d.path.extension

/-- `Document::get_relative_file_path`: strip the workspace root, error
when the path is not inside it. -/
def Document.get_relative_file_path (d : Document) : Except PresenceError String :=
  match d.path.stripPrefixOf d.workspace_root with
  | none => .error (.Config "File is not within the workspace root")
  | some rel => .ok (relRender rel)

/-- `Document::get_full_directory_name`: the parent directory's full path. -/
def Document.get_full_directory_name (d : Document) : Except PresenceError String :=
  match d.path.parent with
  | none => .error (.Config "Could not determine parent directory")
  | some par => .ok par.render

/-- `Document::get_directory_name`: the parent directory's own name. -/
def Document.get_directory_name (d : Document) : Except PresenceError String :=
  match d.path.parent with
  | none => .error (.Config "Could not determine parent directory")
  | some par =>
    match par.fileName with
    | none => .error (.Config "Could not determine directory name")
    | some name => .ok name

/-- `Document::get_folder_and_file`: `directory_name` joined with the
decoded file name. -/
def Document.get_folder_and_file (d : Document) : Except PresenceError String := do
  let parent ← d.get_directory_name
  let file ← d.get_filename
  return parent ++ "/" ++ file

/-- `Document::get_file_size`: the filesystem's byte count for the path. -/
def Document.get_file_size (d : Document) : Except PresenceError Nat :=
  match d.fs_size with
  | some n => .ok n
  | none => .error (.Config "Failed to get file size")

/-- Round `num / den` to the nearest integer, ties to even — the rounding
Rust's fixed-precision float formatting applies to the exact value. -/
def roundHalfEven (num den : Nat) : Nat :=
  let q := num / den
  let r := num % den
  if 2 * r < den then q
  else if den < 2 * r then q + 1
  else if q % 2 = 0 then q else q + 1

/-- Rust `format!("{:.1}", bytes as f64 / unit as f64)` for `unit` a power
of two: division of a float by a power of two is exact, and Rust renders
the exact value rounded to one decimal, ties to even. (For
`bytes ≥ 2^53` the `u64 → f64` conversion itself rounds; this model keeps
the exact integer, which can differ from the float in the last decimal
only for such astronomically large sizes.) -/
def formatOneDecimal (bytes unit : Nat) : String :=
  let t := roundHalfEven (10 * bytes) unit
  toString (t / 10) ++ "." ++ toString (t % 10)

/-- `format_file_size` from `lsp/src/document.rs` lines 136-147: `MB` with
one decimal at and above 1 048 576 bytes, `KB` with one decimal at and
above 1024 bytes, otherwise `"<n> byte"`/`"<n> bytes"`. -/
def format_file_size (bytes : Nat) : String :=
  if 1048576 ≤ bytes then formatOneDecimal bytes 1048576 ++ " MB"
  else if 1024 ≤ bytes then formatOneDecimal bytes 1024 ++ " KB"
  else toString bytes ++ (if bytes = 1 then " byte" else " bytes")

/-- `Document::get_formatted_file_size`: human-readable size, `"unknown"`
when the filesystem query fails. -/
def Document.get_formatted_file_size (d : Document) : String :=
  match d.get_file_size with
  | .ok size => format_file_size size
  | .error _ => "unknown"

/-!
## Configuration (`lsp/src/config/*`)
-/

/-- Activity template set (`lsp/src/config/activity.rs`). -/
structure Activity where
  state : Option String
  details : Option String
  large_image : Option String
  large_text : Option String
  small_image : Option String
  small_text : Option String
deriving DecidableEq, Repr

/-- `Activity::default()`. -/
def Activity.defaultVal : Activity :=
  { state := some "Working on \x7bfilename\x7d"
    details := some "In \x7bworkspace\x7d"
    large_image := some "\x7bbase_icons_url\x7d/\x7blanguage:lo\x7d.png"
    large_text := some "\x7blanguage:u\x7d"
    small_image := some "\x7bbase_icons_url\x7d/zed.png"
    small_text := some "Zed" }

/-- Idle action (`lsp/src/config/idle.rs`). -/
inductive IdleAction where
  | ClearActivity
  | ChangeActivity
deriving DecidableEq, Repr

/-- Idle settings (`lsp/src/config/idle.rs`); `timeout` is in seconds, as
stored via `Duration::from_secs`. -/
structure Idle where
  timeout : Nat
  action : IdleAction
  state : Option String
  details : Option String
  large_image : Option String
  large_text : Option String
  small_image : Option String
  small_text : Option String
deriving DecidableEq, Repr

/-- `Idle::default()` (`DEFAULT_IDLE_TIMEOUT` is 300 seconds). -/
def Idle.defaultVal : Idle :=
  { timeout := 300
    action := .ChangeActivity
    state := some "Idling"
    details := some "In Zed"
    large_image := some "\x7bbase_icons_url\x7d/zed.png"
    large_text := some "Zed"
    small_image := some "\x7bbase_icons_url\x7d/idle.png"
    small_text := some "Idle" }

/-- Rules mode (`lsp/src/config/rules.rs`). -/
inductive RulesMode where
  | Whitelist
  | Blacklist
deriving DecidableEq, Repr

/-- Workspace-path filter (`lsp/src/config/rules.rs`). -/
structure Rules where
  mode : RulesMode
  paths : List String
deriving DecidableEq, Repr

/-- `Rules::default()`. -/
def Rules.defaultVal : Rules := { mode := .Blacklist, paths := [] }

/-- `Rules::suitable` (`rules.rs` lines 52-60): membership of `path` in the
list, negated in blacklist mode. -/
def Rules.suitable (r : Rules) (path : String) : Bool :=
  let contains := r.paths.contains path
  match r.mode with
  | .Blacklist => !contains
  | .Whitelist => contains

/-- `Configuration` (`lsp/src/config/mod.rs`). The `languages` map is a
`HashMap<String, Activity>` in the source; it is modelled as an association
list with insert-replaces-existing semantics. -/
structure Configuration where
  application_id : String
  base_icons_url : String
  activity : Activity
  rules : Rules
  idle : Idle
  git_integration : Bool
  languages : List (String × Activity)
deriving DecidableEq, Repr

/-- `DEFAULT_APP_ID` from `config/mod.rs`. -/
def DEFAULT_APP_ID : String := "1263505205522337886"

/-- `DEFAULT_ICONS_URL` from `config/mod.rs`. -/
def DEFAULT_ICONS_URL : String :=
  "https://raw.githubusercontent.com/xhyrom/zed-discord-presence/main/assets/icons/"

/-- `Configuration::default()`. -/
def Configuration.defaultVal : Configuration :=
  { application_id := DEFAULT_APP_ID
    base_icons_url := DEFAULT_ICONS_URL
    activity := Activity.defaultVal
    rules := Rules.defaultVal
    idle := Idle.defaultVal
    git_integration := true
    languages := [] }

/-!
## Language classification (`lsp/src/languages.rs`)
-/

/-- Modelled from the spec: the static filename/extension-to-language
classification table. Its data, `assets/languages.json`, is not under the
source tree given here, and the spec fixes only the interface
`classify_language(filename, extension) -> String` with default `"text"`
when unmatched, so the table is modelled as empty; no claim depends on its
entries. -/
def LANGUAGE_MAP : List (String × String) := []

/-- `get_language` from `lsp/src/languages.rs`: exact file-name match,
then `regex:`-prefixed patterns (unreachable on the empty modelled table,
so the regex engine itself needs no model), then extension match (with a
leading dot), then `"text"`. The file name falls back to `"unknown"` when
`get_filename` fails. -/
def get_language (doc : Document) : String :=
  let filename :=
    match doc.get_filename with
    | .ok s => s
    | .error _ => "unknown"
  let extension := "." ++ doc.get_extension
  match LANGUAGE_MAP.find? (fun kv => kv.1 = filename) with
  | some kv => kv.2
  | none =>
    match LANGUAGE_MAP.find? (fun kv => "regex:".isPrefixOf kv.1) with
    | some kv => kv.2
    | none =>
      match LANGUAGE_MAP.find? (fun kv => kv.1 = extension) with
      | some kv => kv.2
      | none => "text"

/-!
## Placeholder engine (`lsp/src/util/placeholders.rs`)
-/

/-- `Placeholders` (`placeholders.rs` lines 37-49). -/
structure Placeholders where
  filename : Option String
  workspace : String
  language : Option String
  base_icons_url : String
  relative_file_path : Option String
  folder_and_file : Option String
  directory_name : Option String
  full_directory_name : Option String
  line_number : Option Nat
  git_branch : Option String
  file_size : Option String
deriving DecidableEq, Repr

/-- Rust `.unwrap_or_default()` on a `Result<String, _>`. -/
def unwrapOrDefault (r : Except PresenceError String) : String :=
  match r with
  | .ok s => s
  | .error _ => ""

/-- `Placeholders::new` (`placeholders.rs` lines 52-95): with a document,
each path-derived source is `Some` of the accessor's value with errors
collapsed to `""` by `unwrap_or_default`; without a document all
document-derived sources are `None`. -/
def Placeholders.new (doc : Option Document) (config : Configuration)
    (workspace : String) (git_branch : Option String) : Placeholders :=
  match doc with
  | some d =>
    { filename := some (unwrapOrDefault d.get_filename)
      workspace := workspace
      language := some (get_language d)
      base_icons_url := config.base_icons_url
      relative_file_path := some (unwrapOrDefault d.get_relative_file_path)
      folder_and_file := some (unwrapOrDefault d.get_folder_and_file)
      directory_name := some (unwrapOrDefault d.get_directory_name)
      full_directory_name := some (unwrapOrDefault d.get_full_directory_name)
      line_number := d.get_line_number
      git_branch := git_branch
      file_size := some d.get_formatted_file_size }
  | none =>
    { filename := none
      workspace := workspace
      language := none
      base_icons_url := config.base_icons_url
      relative_file_path := none
      folder_and_file := none
      directory_name := none
      full_directory_name := none
      line_number := none
      git_branch := git_branch
      file_size := none }

/-- One expansion of the `replace_with_capitalization!` macro for a single
placeholder: replace `\x7bname\x7d` with the value, `\x7bname:u\x7d` with
the value first-uppercased, and `\x7bname:lo\x7d` with the value
lowercased. -/
def replaceOne (text ph value : String) : String :=
  strReplace
    (strReplace (strReplace text ("\x7b" ++ ph ++ "\x7d") value)
      ("\x7b" ++ ph ++ ":u\x7d") (capitalize_first_letter value))
    ("\x7b" ++ ph ++ ":lo\x7d") (strToLower value)

/-- The `line_number` display string of `Placeholders::replace`: the stored
0-indexed value plus one, or `"0"` when absent. -/
def Placeholders.lineNumberStr (p : Placeholders) : String :=
  match p.line_number with
  | none => "0"
  | some n => toString (n + 1)

/-- The substitution values computed at the top of `Placeholders::replace`
(`placeholders.rs` lines 98-116), paired with their placeholder names in
the order the macro invocation applies them: each unavailable source falls
back to the literal placeholder name via `unwrap_or`. -/
def Placeholders.resolvedValues (p : Placeholders) : List (String × String) :=
  [("filename", p.filename.getD "filename"),
   ("workspace", p.workspace),
   ("language", p.language.getD "language"),
   ("base_icons_url", p.base_icons_url),
   ("relative_file_path", p.relative_file_path.getD "relative_file_path"),
   ("folder_and_file", p.folder_and_file.getD "folder_and_file"),
   ("directory_name", p.directory_name.getD "directory_name"),
   ("full_directory_name", p.full_directory_name.getD "full_directory_name"),
   ("line_number", p.lineNumberStr),
   ("git_branch", p.git_branch.getD "git_branch"),
   ("file_size", p.file_size.getD "file_size")]

/-- `Placeholders::replace` (`placeholders.rs` lines 97-132): apply the
three-pattern replacement for each placeholder in macro order. -/
def Placeholders.replace (p : Placeholders) (text : String) : String :=
  p.resolvedValues.foldl (fun acc nv => replaceOne acc nv.1 nv.2) text

/-!
## Activity fields and the idle fire path
(`lsp/src/activity/fields.rs`, `lsp/src/activity/mod.rs`, `lsp/src/idle.rs`)
-/

/-- `ActivityFields` (`lsp/src/activity/fields.rs`). -/
structure ActivityFields where
  state : Option String
  details : Option String
  large_image : Option String
  large_text : Option String
  small_image : Option String
  small_text : Option String
deriving DecidableEq, Repr

/-- `ActivityFields::new`. -/
def ActivityFields.new (state details large_image large_text small_image
    small_text : Option String) : ActivityFields :=
  { state, details, large_image, large_text, small_image, small_text }

/-- `ActivityFields::resolve_placeholders`: run the placeholder engine over
every present field. -/
def ActivityFields.resolve_placeholders (f : ActivityFields)
    (p : Placeholders) : ActivityFields :=
  { state := f.state.map p.replace
    details := f.details.map p.replace
    large_image := f.large_image.map p.replace
    large_text := f.large_text.map p.replace
    small_image := f.small_image.map p.replace
    small_text := f.small_text.map p.replace }

/-- `ActivityManager::build_idle_activity_fields` (`activity/mod.rs` lines
56-68): the idle template set resolved with placeholders built from no
document (the call site passes no git branch either, so none is used). -/
def ActivityManager.build_idle_activity_fields (config : Configuration)
    (workspace : String) : ActivityFields :=
  let placeholders := Placeholders.new none config workspace none
  (ActivityFields.new config.idle.state config.idle.details
    config.idle.large_image config.idle.large_text config.idle.small_image
    config.idle.small_text).resolve_placeholders placeholders

/-- What the idle timer body emits towards Discord when it fires. -/
inductive IdleEmission where
  | clear
  | change (fields : ActivityFields) (gitUrl : Option String)
deriving DecidableEq, Repr

/-- The body of the task spawned by `IdleManager::reset_timeout`
(`lsp/src/idle.rs` lines 64-104), run after the timeout sleep: read the
configured idle action; on `ClearActivity` issue one `clear_activity`, on
`ChangeActivity` build the idle activity fields, attach the shared git
remote URL only when `git_integration` is enabled, and issue one
`change_activity`. Both calls discard their `Result` (`let _ = ...`), so
the body returns no error; it is modelled as the emission it sends. The
body has no access to the cached last document — its only inputs are the
shared configuration, the shared git remote URL, and the workspace name. -/
def idleFire (config : Configuration) (git_remote_url : Option String)
    (workspace : String) : IdleEmission :=
  match config.idle.action with
  | .ClearActivity => .clear
  | .ChangeActivity =>
    let activity_fields := ActivityManager.build_idle_activity_fields config workspace
    let git_url := if config.git_integration then git_remote_url else none
    .change activity_fields git_url

/-- Modelled from the spec: the claim's reading of the idle
`ChangeActivity` fields, "resolve idle-flavored fields via ActivityResolver
using the idle template set ... and the last cached document (or none)" —
the idle template set resolved with placeholders built from the cached
document when one exists. Compare with
`ActivityManager.build_idle_activity_fields`, which always resolves with no
document. -/
def claimIdleFields (config : Configuration) (lastDoc : Option Document)
    (workspace : String) : ActivityFields :=
  let placeholders := Placeholders.new lastDoc config workspace none
  (ActivityFields.new config.idle.state config.idle.details
    config.idle.large_image config.idle.large_text config.idle.small_image
    config.idle.small_text).resolve_placeholders placeholders

/-!
## JSON configuration updates (`lsp/src/config/update.rs`, `config/mod.rs`)
-/

/-- `serde_json::Value`. Numbers are modelled as integers: the
configuration reads numbers only through `as_u64` (the idle timeout), and
floating-point JSON numbers answer `None` there just as a negative integer
does. Objects preserve entry order, as with serde's map iteration. -/
inductive JValue where
  | null
  | bool (b : Bool)
  | num (n : Int)
  | str (s : String)
  | arr (elems : List JValue)
  | obj (entries : List (String × JValue))

/-- `Value::get(key)`: the value under `key` if this is an object, else
`None`. -/
def JValue.get (j : JValue) (key : String) : Option JValue :=
  match j with
  | .obj entries => (entries.find? (fun kv => kv.1 = key)).map (fun kv => kv.2)
  | _ => none

/-- `Value::is_null`. -/
def JValue.isNull (j : JValue) : Bool :=
  match j with
  | .null => true
  | _ => false

/-- `Value::as_str`. -/
def JValue.asStr (j : JValue) : Option String :=
  match j with
  | .str s => some s
  | _ => none

/-- `Value::as_bool`. -/
def JValue.asBool (j : JValue) : Option Bool :=
  match j with
  | .bool b => some b
  | _ => none

/-- `Value::as_u64`. -/
def JValue.asU64 (j : JValue) : Option Nat :=
  match j with
  | .num n => if 0 ≤ n then some n.toNat else none
  | _ => none

/-- `Value::as_array`. -/
def JValue.asArray (j : JValue) : Option (List JValue) :=
  match j with
  | .arr elems => some elems
  | _ => none

/-- `Value::as_object`. -/
def JValue.asObject (j : JValue) : Option (List (String × JValue)) :=
  match j with
  | .obj entries => some entries
  | _ => none

/-- The `update_optional_string_field!` macro (`config/update.rs` lines
26-36): a missing key keeps the current value; a present key sets the field
to `None` when its value is `null`, else to `as_str` of the value (also
`None` for non-string values). -/
def update_optional_string_field (json : JValue) (key : String)
    (current : Option String) : Option String :=
  match json.get key with
  | none => current
  | some v => if v.isNull then none else v.asStr

/-- `Activity::update_from_json` (`config/activity.rs` lines 30-40): the
six optional template fields, each via `update_optional_string_field!`
against the same JSON object. This function always returns `Ok` in the
source. -/
def Activity.update_from_json (a : Activity) (json : JValue) : Activity :=
  { state := update_optional_string_field json "state" a.state
    details := update_optional_string_field json "details" a.details
    large_image := update_optional_string_field json "large_image" a.large_image
    large_text := update_optional_string_field json "large_text" a.large_text
    small_image := update_optional_string_field json "small_image" a.small_image
    small_text := update_optional_string_field json "small_text" a.small_text }

/-- `Rules::update_from_json` (`config/rules.rs` lines 63-80): `mode` from
a string key (unknown strings fall back to the default, blacklist), `paths`
from an array key keeping only its strings. -/
def Rules.update_from_json (r : Rules) (json : JValue) : Rules :=
  let mode :=
    match (json.get "mode").bind JValue.asStr with
    | some "whitelist" => RulesMode.Whitelist
    | some "blacklist" => RulesMode.Blacklist
    | some _ => RulesMode.Blacklist
    | none => r.mode
  let paths :=
    match (json.get "paths").bind JValue.asArray with
    | some elems => elems.filterMap JValue.asStr
    | none => r.paths
  { mode, paths }

/-- `Idle::update_from_json` (`config/idle.rs` lines 68-89): `timeout` from
a `u64` key (seconds), `action` from a string key (unknown strings fall
back to the default, `ChangeActivity`), then the six optional template
fields. -/
def Idle.update_from_json (i : Idle) (json : JValue) : Idle :=
  let timeout :=
    match (json.get "timeout").bind JValue.asU64 with
    | some t => t
    | none => i.timeout
  let action :=
    match (json.get "action").bind JValue.asStr with
    | some "clear_activity" => IdleAction.ClearActivity
    | some "change_activity" => IdleAction.ChangeActivity
    | some _ => IdleAction.ChangeActivity
    | none => i.action
  { timeout
    action
    state := update_optional_string_field json "state" i.state
    details := update_optional_string_field json "details" i.details
    large_image := update_optional_string_field json "large_image" i.large_image
    large_text := update_optional_string_field json "large_text" i.large_text
    small_image := update_optional_string_field json "small_image" i.small_image
    small_text := update_optional_string_field json "small_text" i.small_text }

/-- `HashMap::insert` on the association-list model of the per-language
map: replace the entry when the key exists, else append. -/
def insertLanguage (m : List (String × Activity)) (key : String)
    (value : Activity) : List (String × Activity) :=
  if m.any (fun kv => kv.1 = key) then
    m.map (fun kv => if kv.1 = key then (key, value) else kv)
  else
    m ++ [(key, value)]

/-- `Configuration::update_from_json` (`config/mod.rs` lines 65-104):
`application_id` and `base_icons_url` from string keys; the six activity
template fields from the same top-level object; `rules`, `idle` and
`languages` from nested objects when present; `git_integration` from its
key with non-boolean values defaulting to `true`. Each language entry
updates a fresh default `Activity` (the per-language error branch is dead
code, since `Activity::update_from_json` always succeeds). This function
always returns `Ok` in the source. -/
def Configuration.update_from_json (c : Configuration) (json : JValue) :
    Configuration :=
  let application_id :=
    match (json.get "application_id").bind JValue.asStr with
    | some s => s
    | none => c.application_id
  let base_icons_url :=
    match (json.get "base_icons_url").bind JValue.asStr with
    | some s => s
    | none => c.base_icons_url
  let activity := c.activity.update_from_json json
  let rules :=
    match json.get "rules" with
    | some v => c.rules.update_from_json v
    | none => c.rules
  let idle :=
    match json.get "idle" with
    | some v => c.idle.update_from_json v
    | none => c.idle
  let git_integration :=
    match json.get "git_integration" with
    | some v => v.asBool.getD true
    | none => c.git_integration
  let languages :=
    match json.get "languages" with
    | some v =>
      (v.asObject.getD []).foldl
        (fun acc kv =>
          insertLanguage acc kv.1 (Activity.defaultVal.update_from_json kv.2))
        c.languages
    | none => c.languages
  { application_id, base_icons_url, activity, rules, idle, git_integration,
    languages }

/-- The top-level configuration keys `Configuration::update_from_json`
reads (the spec's recognized-key list, with the six activity template keys
read from the top level and `rules.*`/`idle.*`/`languages.*` nested under
their own keys). -/
def recognizedKeys : List String :=
  ["application_id", "base_icons_url", "state", "details", "large_image",
   "large_text", "small_image", "small_text", "rules", "idle",
   "git_integration", "languages"]

/-!
## Theorems
-/

/-- The sleep durations recorded in an action log. -/
def sleepsOf (a : DiscordAction) : Option Nat :=
  match a with
  | .sleep ms => some ms
  | _ => none

/-- Environment in which every IPC operation fails. -/
def envAllFail : IpcEnv :=
  { connectOk := fun _ => false, closeOk := false, setActivityOk := false,
    clearActivityOk := false }

/-- Environment in which every IPC operation succeeds. -/
def envAllOk : IpcEnv :=
  { connectOk := fun _ => true, closeOk := true, setActivityOk := true,
    clearActivityOk := true }

/-- Environment in which only the third `connect` call (index 2) succeeds. -/
def envThird : IpcEnv :=
  { connectOk := fun i => decide (i = 2), closeOk := true,
    setActivityOk := true, clearActivityOk := true }

/-- Environment in which connects and closes succeed but sending an
activity update fails. -/
def envSendFail : IpcEnv :=
  { connectOk := fun _ => true, closeOk := true, setActivityOk := false,
    clearActivityOk := false }

/-- A `Discord` state with the client created but not connected. -/
def dReady : Discord := { client := true, connected := false }

/-- A `Discord` state with the client created and connected. -/
def dConn : Discord := { client := true, connected := true }

/-- C1: a `connect_with_retry` call whose underlying connects all fail
makes exactly 5 attempts, sleeps exactly 500, 1000, 2000, 4000 ms between
consecutive failed attempts, and returns the connection error of the 5th
failure; if the first succeeding attempt is attempt `k + 1 ≤ 5`, the call
returns `Ok` immediately after it, with `k + 1` attempts made and only the
first `k` delays slept. -/
theorem connect_with_retry_backoff_spec (s : Discord) (env : IpcEnv)
    (hclient : s.client = true) :
    ((∀ i, i < 5 → env.connectOk i = false) →
      (s.connect_with_retry env 0).log =
        [.connectAttempt, .sleep 500, .connectAttempt, .sleep 1000,
         .connectAttempt, .sleep 2000, .connectAttempt, .sleep 4000,
         .connectAttempt] ∧
      (s.connect_with_retry env 0).log.count .connectAttempt = 5 ∧
      (s.connect_with_retry env 0).log.filterMap sleepsOf =
        [500, 1000, 2000, 4000] ∧
      (s.connect_with_retry env 0).result =
        .error (.Discord "Failed to connect to Discord IPC")) ∧
    (∀ k, k < 5 → (∀ i, i < k → env.connectOk i = false) →
      env.connectOk k = true →
      (s.connect_with_retry env 0).result = .ok () ∧
      (s.connect_with_retry env 0).discord.connected = true ∧
      (s.connect_with_retry env 0).log.count .connectAttempt = k + 1 ∧
      (s.connect_with_retry env 0).log.filterMap sleepsOf =
        [500, 1000, 2000, 4000].take k) := by
  constructor
  · intro h
    have h0 := h 0 (by omega)
    have h1 := h 1 (by omega)
    have h2 := h 2 (by omega)
    have h3 := h 3 (by omega)
    have h4 := h 4 (by omega)
    simp [Discord.connect_with_retry, MAX_RETRIES, INITIAL_DELAY_MS,
      MAX_DELAY_MS, connectWithRetryAux, Discord.connect, hclient, h0, h1,
      h2, h3, h4, sleepsOf, List.count]
  · intro k hk h hs
    interval_cases k
    · simp [Discord.connect_with_retry, MAX_RETRIES, INITIAL_DELAY_MS,
        MAX_DELAY_MS, connectWithRetryAux, Discord.connect, hclient, hs,
        sleepsOf, List.count]
    · have h0 := h 0 (by omega)
      simp [Discord.connect_with_retry, MAX_RETRIES, INITIAL_DELAY_MS,
        MAX_DELAY_MS, connectWithRetryAux, Discord.connect, hclient, h0, hs,
        sleepsOf, List.count]
    · have h0 := h 0 (by omega)
      have h1 := h 1 (by omega)
      simp [Discord.connect_with_retry, MAX_RETRIES, INITIAL_DELAY_MS,
        MAX_DELAY_MS, connectWithRetryAux, Discord.connect, hclient, h0, h1,
        hs, sleepsOf, List.count]
    · have h0 := h 0 (by omega)
      have h1 := h 1 (by omega)
      have h2 := h 2 (by omega)
      simp [Discord.connect_with_retry, MAX_RETRIES, INITIAL_DELAY_MS,
        MAX_DELAY_MS, connectWithRetryAux, Discord.connect, hclient, h0, h1,
        h2, hs, sleepsOf, List.count]
    · have h0 := h 0 (by omega)
      have h1 := h 1 (by omega)
      have h2 := h 2 (by omega)
      have h3 := h 3 (by omega)
      simp [Discord.connect_with_retry, MAX_RETRIES, INITIAL_DELAY_MS,
        MAX_DELAY_MS, connectWithRetryAux, Discord.connect, hclient, h0, h1,
        h2, h3, hs, sleepsOf, List.count]

/-- Witness for C1: with a created client and the IPC endpoint refusing
every connect, the retry loop errors after 5 attempts; with only the third
connect succeeding, it returns `Ok` having slept 500 and 1000 ms. -/
theorem connect_with_retry_backoff_spec_witness :
    (dReady.connect_with_retry envAllFail 0).result =
      .error (.Discord "Failed to connect to Discord IPC") ∧
    (dReady.connect_with_retry envAllFail 0).log.count .connectAttempt = 5 ∧
    (dReady.connect_with_retry envThird 0).result = .ok () ∧
    (dReady.connect_with_retry envThird 0).log.filterMap sleepsOf =
      [500, 1000] := by
  have hf := (connect_with_retry_backoff_spec dReady envAllFail rfl).1
    (fun i _ => rfl)
  have hs := (connect_with_retry_backoff_spec dReady envThird rfl).2 2
    (by omega) (by intro i hi; interval_cases i <;> rfl) rfl
  exact ⟨hf.2.2.2, hf.2.1, hs.1, by simpa using hs.2.2.2⟩

/-- `connect` never performs a send. -/
theorem setActivity_not_in_connect_log (s : Discord) (env : IpcEnv) (n : Nat) :
    DiscordAction.setActivity ∉ (s.connect env n).log := by
  unfold Discord.connect
  split
  · simp
  · split <;> simp

/-- `kill` never performs a send. -/
theorem setActivity_not_in_kill_log (s : Discord) (env : IpcEnv) (n : Nat) :
    DiscordAction.setActivity ∉ (s.kill env n).log := by
  cases hc : s.client <;> cases he : env.closeOk <;> simp [Discord.kill, hc, he]

/-- The retry loop never performs a send. -/
theorem setActivity_not_in_retryAux_log (env : IpcEnv) :
    ∀ rem (s : Discord) (n delayMs : Nat),
      DiscordAction.setActivity ∉ (connectWithRetryAux env rem s n delayMs).log := by
  intro rem
  induction rem with
  | zero => intro s n delayMs; simp [connectWithRetryAux]
  | succ r ih =>
    intro s n delayMs
    simp only [connectWithRetryAux]
    cases hstep : (s.connect env n).result with
    | ok u =>
      simpa using setActivity_not_in_connect_log s env n
    | error e =>
      by_cases hr : r = 0
      · simpa [hr] using setActivity_not_in_connect_log s env n
      · simp only [hr, if_false]
        simp [List.mem_append]
        exact ⟨fun h => setActivity_not_in_connect_log s env n h,
          fun h => ih _ _ _ h⟩

/-- `reconnect` never performs a send. -/
theorem setActivity_not_in_reconnect_log (s : Discord) (env : IpcEnv) (n : Nat) :
    DiscordAction.setActivity ∉ (s.reconnect env n).log := by
  unfold Discord.reconnect
  simp [List.mem_append]
  exact ⟨fun h => setActivity_not_in_kill_log _ env n h,
    fun h => setActivity_not_in_retryAux_log env _ _ _ _ h⟩

/-- A successful `connect` leaves the flag set. -/
theorem connect_ok_connected (s : Discord) (env : IpcEnv) (n : Nat)
    (h : (s.connect env n).result = .ok ()) :
    (s.connect env n).discord.connected = true := by
  unfold Discord.connect at h ⊢
  split at h
  · simp at h
  · split at h <;> simp_all [Discord.connect]

/-- A successful retry loop leaves the flag set. -/
theorem retryAux_ok_connected (env : IpcEnv) :
    ∀ rem (s : Discord) (n delayMs : Nat),
      (connectWithRetryAux env rem s n delayMs).result = .ok () →
      (connectWithRetryAux env rem s n delayMs).discord.connected = true := by
  intro rem
  induction rem with
  | zero => intro s n delayMs h; simp [connectWithRetryAux] at h
  | succ r ih =>
    intro s n delayMs h
    simp only [connectWithRetryAux] at h ⊢
    cases hstep : (s.connect env n).result with
    | ok u =>
      cases u
      exact connect_ok_connected s env n hstep
    | error e =>
      rw [hstep] at h
      by_cases hr : r = 0
      · simp [hr] at h
      · simp only [hr, if_false] at h ⊢
        exact ih _ _ _ h

/-- A successful `reconnect` leaves the flag set. -/
theorem reconnect_ok_connected (s : Discord) (env : IpcEnv) (n : Nat)
    (h : (s.reconnect env n).result = .ok ()) :
    (s.reconnect env n).discord.connected = true := by
  unfold Discord.reconnect at h ⊢
  exact retryAux_ok_connected env _ _ _ _ h

/-- `change_activity` never modifies the `Discord` state. -/
theorem change_activity_discord_eq (p : Discord)
    (st de li lt si sm gu : Option String) (env : IpcEnv) (n : Nat) :
    (p.change_activity st de li lt si sm gu env n).discord = p := by
  unfold Discord.change_activity
  split
  · rfl
  · split <;> rfl

/-- A successful `change_activity` performed exactly the underlying send. -/
theorem change_activity_ok_log (p : Discord)
    (st de li lt si sm gu : Option String) (env : IpcEnv) (n : Nat)
    (h : (p.change_activity st de li lt si sm gu env n).result = .ok ()) :
    (p.change_activity st de li lt si sm gu env n).log = [.setActivity] := by
  unfold Discord.change_activity at h ⊢
  split at h
  · simp at h
  · split at h <;> simp_all [Discord.change_activity]

/-- `kill` always leaves the flag cleared. -/
theorem kill_discord_connected (s : Discord) (env : IpcEnv) (n : Nat) :
    (s.kill env n).discord.connected = false := by
  cases hc : s.client <;> cases he : env.closeOk <;> simp [Discord.kill, hc, he]

/-- Starting unconnected, `connect` either succeeds or leaves the flag
cleared. -/
theorem connect_false_connected (s : Discord) (env : IpcEnv) (n : Nat)
    (hc : s.connected = false) :
    (s.connect env n).result = .ok () ∨
      (s.connect env n).discord.connected = false := by
  unfold Discord.connect
  split
  · right; simpa using hc
  · split
    · left; rfl
    · right; rfl

/-- Starting unconnected, a failed `connect` leaves the flag cleared. -/
theorem connect_error_connected (s : Discord) (env : IpcEnv) (n : Nat)
    (e : PresenceError) (hc : s.connected = false)
    (h : (s.connect env n).result = .error e) :
    (s.connect env n).discord.connected = false := by
  rcases connect_false_connected s env n hc with hok | hfalse
  · rw [h] at hok; simp at hok
  · exact hfalse

/-- Starting unconnected, a failed retry loop leaves the flag cleared. -/
theorem retryAux_error_connected (env : IpcEnv) :
    ∀ rem (s : Discord) (n delayMs : Nat) (e : PresenceError),
      s.connected = false →
      (connectWithRetryAux env rem s n delayMs).result = .error e →
      (connectWithRetryAux env rem s n delayMs).discord.connected = false := by
  intro rem
  induction rem with
  | zero => intro s n delayMs e hc h; simpa [connectWithRetryAux] using hc
  | succ r ih =>
    intro s n delayMs e hc h
    simp only [connectWithRetryAux] at h ⊢
    cases hstep : (s.connect env n).result with
    | ok u => cases u; simp [hstep] at h
    | error e' =>
      rw [hstep] at h
      by_cases hr : r = 0
      · simp only [hr, ite_true] at h ⊢
        exact connect_error_connected s env n e' hc hstep
      · simp only [hr, if_false] at h ⊢
        exact ih _ _ _ _ (connect_error_connected s env n e' hc hstep) h

/-- A failed `reconnect` leaves the flag cleared. -/
theorem reconnect_error_connected (s : Discord) (env : IpcEnv) (n : Nat)
    (e : PresenceError) (h : (s.reconnect env n).result = .error e) :
    (s.reconnect env n).discord.connected = false := by
  simp only [Discord.reconnect, Discord.connect_with_retry] at h ⊢
  exact retryAux_error_connected env MAX_RETRIES _ _ _ e
    (kill_discord_connected _ env n) h

/-- C2: `change_activity_with_reconnect` — when not connected it runs
`reconnect` first, and a reconnection failure is returned as-is with no
send attempted (the whole call is exactly the reconnect); when the send is
reached (connected, or reconnect succeeded) a send failure's error is the
call's returned error; any returned error leaves the connection marked
disconnected; a successful call leaves the flag set and did perform the
send. -/
theorem change_activity_with_reconnect_spec (s : Discord) (env : IpcEnv)
    (n : Nat) (st de li lt si sm gu : Option String) :
    (s.connected = false → ∀ e, (s.reconnect env n).result = .error e →
      s.change_activity_with_reconnect st de li lt si sm gu env n =
        s.reconnect env n ∧
      DiscordAction.setActivity ∉
        (s.change_activity_with_reconnect st de li lt si sm gu env n).log) ∧
    (s.connected = true → ∀ e,
      (s.change_activity st de li lt si sm gu env n).result = .error e →
      (s.change_activity_with_reconnect st de li lt si sm gu env n).result
        = .error e) ∧
    (s.connected = false → (s.reconnect env n).result = .ok () → ∀ e,
      ((s.reconnect env n).discord.change_activity st de li lt si sm gu env
          (s.reconnect env n).calls).result = .error e →
      (s.change_activity_with_reconnect st de li lt si sm gu env n).result
        = .error e) ∧
    (∀ e, (s.change_activity_with_reconnect st de li lt si sm gu env n).result
        = .error e →
      (s.change_activity_with_reconnect st de li lt si sm gu env n).discord.is_connected
        = false) ∧
    ((s.change_activity_with_reconnect st de li lt si sm gu env n).result
        = .ok () →
      (s.change_activity_with_reconnect st de li lt si sm gu env n).discord.is_connected
        = true ∧
      DiscordAction.setActivity ∈
        (s.change_activity_with_reconnect st de li lt si sm gu env n).log) := by
  refine ⟨?_, ?_, ?_, ?_, ?_⟩
  · intro hb e hrec
    constructor
    · simp only [Discord.change_activity_with_reconnect, if_pos hb, hrec]
      rcases hE : s.reconnect env n with ⟨d, c, l, rr⟩
      rw [hE] at hrec
      simp only at hrec
      simp [hrec]
    · simp only [Discord.change_activity_with_reconnect, if_pos hb, hrec]
      simpa using setActivity_not_in_reconnect_log s env n
  · intro hb e hc
    have hbne : ¬s.connected = false := by simp [hb]
    simp only [Discord.change_activity_with_reconnect, if_neg hbne]
    simp [hc]
  · intro hb hrec e hc
    simp only [Discord.change_activity_with_reconnect, if_pos hb, hrec]
    simp [hc]
  · intro e herr
    cases hb : s.connected with
    | true =>
      have hbne : ¬s.connected = false := by simp [hb]
      simp only [Discord.change_activity_with_reconnect, if_neg hbne] at herr ⊢
      cases hc : (Discord.change_activity s st de li lt si sm gu env n).result with
      | ok u => cases u; simp [hc] at herr
      | error e' => simp [hc, Discord.is_connected]
    | false =>
      simp only [Discord.change_activity_with_reconnect, if_pos hb] at herr ⊢
      cases hrec : (s.reconnect env n).result with
      | error e' =>
        simp only [hrec, Discord.is_connected]
        simpa using reconnect_error_connected s env n e' hrec
      | ok u =>
        cases u
        simp only [hrec] at herr ⊢
        cases hc : ((s.reconnect env n).discord.change_activity st de li lt si
            sm gu env (s.reconnect env n).calls).result with
        | ok u => cases u; simp [hc] at herr
        | error e' => simp [hc, Discord.is_connected]
  · intro hok
    cases hb : s.connected with
    | true =>
      have hbne : ¬s.connected = false := by simp [hb]
      simp only [Discord.change_activity_with_reconnect, if_neg hbne] at hok ⊢
      cases hc : (Discord.change_activity s st de li lt si sm gu env n).result with
      | error e' => simp [hc] at hok
      | ok u =>
        cases u
        constructor
        · simp only [hc]
          simp [change_activity_discord_eq, Discord.is_connected, hb]
        · simp only [hc]
          simp [change_activity_ok_log s st de li lt si sm gu env n hc]
    | false =>
      simp only [Discord.change_activity_with_reconnect, if_pos hb] at hok ⊢
      cases hrec : (s.reconnect env n).result with
      | error e' => simp [hrec] at hok
      | ok u =>
        cases u
        simp only [hrec] at hok ⊢
        cases hc : ((s.reconnect env n).discord.change_activity st de li lt si
            sm gu env (s.reconnect env n).calls).result with
        | error e' => simp [hc] at hok
        | ok u =>
          cases u
          constructor
          · simp only [hc]
            simp [change_activity_discord_eq, Discord.is_connected,
              reconnect_ok_connected s env n hrec]
          · simp only [hc]
            simp [change_activity_ok_log _ st de li lt si sm gu env _ hc]

/-- Witness for C2: with no client and a refusing endpoint, the call is
exactly the failed reconnect; a connected client whose send fails ends up
marked disconnected; a connected client whose send succeeds stays
connected. -/
theorem change_activity_with_reconnect_spec_witness :
    Discord.init.change_activity_with_reconnect none none none none none
        none none envAllFail 0 = Discord.init.reconnect envAllFail 0 ∧
    (dConn.change_activity_with_reconnect none none none none none none
        none envSendFail 0).result = .error (.Discord "Failed to set activity") ∧
    (dReady.change_activity_with_reconnect none none none none none none
        none envSendFail 0).result = .error (.Discord "Failed to set activity") ∧
    (dConn.change_activity_with_reconnect none none none none none none
        none envSendFail 0).discord.is_connected = false ∧
    (dConn.change_activity_with_reconnect none none none none none none
        none envAllOk 0).discord.is_connected = true := by
  refine ⟨?_, ?_, ?_, ?_, ?_⟩
  · exact ((change_activity_with_reconnect_spec Discord.init envAllFail 0
      none none none none none none none).1 rfl clientNotInitialized rfl).1
  · exact (change_activity_with_reconnect_spec dConn envSendFail 0
      none none none none none none none).2.1 rfl
      (.Discord "Failed to set activity") rfl
  · exact (change_activity_with_reconnect_spec dReady envSendFail 0
      none none none none none none none).2.2.1 rfl rfl
      (.Discord "Failed to set activity") rfl
  · exact (change_activity_with_reconnect_spec dConn envSendFail 0
      none none none none none none none).2.2.2.1
      (.Discord "Failed to set activity") rfl
  · exact ((change_activity_with_reconnect_spec dConn envAllOk 0
      none none none none none none none).2.2.2.2 rfl).1

/-- Counterexample for C4: on a `Discord` state whose client was never
created (the state `Discord::new` leaves when `initialize_discord` was not
run), `PresenceService::shutdown` returns the `kill` error instead of
swallowing it, and so does an immediately repeated call — the claim that
two successive `shutdown` calls never return an error is false. -/
theorem shutdown_twice_counterexample :
    (PresenceService.shutdown Discord.init envAllOk 0).result =
      .error clientNotInitialized ∧
    (PresenceService.shutdown
        (PresenceService.shutdown Discord.init envAllOk 0).discord
        envAllOk 0).result = .error clientNotInitialized :=
  ⟨rfl, rfl⟩

/-- C4 (amended): `shutdown` never panics and always completes — it is
exactly one `kill`, whose error it propagates (rather than swallowing) via
`?`; after any call the connection flag is cleared, and a second call again
returns exactly what `kill` returns on the resulting state. -/
theorem shutdown_propagates_kill_spec (s : Discord) (env : IpcEnv) (n : Nat) :
    PresenceService.shutdown s env n = s.kill env n ∧
    (PresenceService.shutdown s env n).discord.connected = false ∧
    PresenceService.shutdown (PresenceService.shutdown s env n).discord env n =
      (PresenceService.shutdown s env n).discord.kill env n := by
  have key : ∀ k : DiscordStep,
      (match k.result with
        | .ok () => { k with result := .ok () }
        | .error e => { k with result := .error e }) = k := by
    intro k
    rcases k with ⟨d, c, l, rr⟩
    cases rr with
    | error e => rfl
    | ok u => cases u; rfl
  have he : PresenceService.shutdown s env n = s.kill env n := key _
  exact ⟨he, by rw [he]; exact kill_discord_connected s env n, key _⟩

/-- A configuration whose idle `state` template shows the file name. -/
def cfgC3 : Configuration :=
  { Configuration.defaultVal with
      idle := { Idle.defaultVal with state := some "\x7bfilename\x7d" } }

/-- A cached document `/home/u/proj/main.rs` in workspace `/home/u/proj`,
10 bytes on disk. -/
def docC3 : Document :=
  { path := ⟨["home", "u", "proj", "main.rs"]⟩
    workspace_root := ⟨["home", "u", "proj"]⟩
    line_number := none
    fs_size := some 10 }

set_option maxRecDepth 100000 in
/-- Counterexample for C3: when the idle timer fires with action
`ChangeActivity` while a document is cached, the fields sent are *not*
resolved together with the cached document, as the claim states — the fire
path resolves with no document at all. With the idle `state` template
`\x7bfilename\x7d` and cached document `main.rs`, the code sends state
`"filename"` (the literal-name fallback) while the claim's resolution
yields `"main.rs"`. -/
theorem idle_fire_cached_document_counterexample :
    idleFire cfgC3 none "proj" ≠
      IdleEmission.change (claimIdleFields cfgC3 (some docC3) "proj") none ∧
    idleFire cfgC3 none "proj" =
      IdleEmission.change (claimIdleFields cfgC3 none "proj") none ∧
    (claimIdleFields cfgC3 (some docC3) "proj").state = some "main.rs" ∧
    (claimIdleFields cfgC3 none "proj").state = some "filename" := by
  refine ⟨by decide, by decide, by decide, by decide⟩

/-- C3 (amended): when the idle timer fires it reads the configured idle
action; on `ClearActivity` it clears; on `ChangeActivity` the fields sent
via `change_activity` are resolved from the idle template set (never the
active/per-language set) with *no* document — the cached document is not
consulted, so document placeholders fall back to their literal names — and
the git remote URL is attached exactly when the git-integration flag is
enabled; the spawned body discards the send's `Result`, so nothing is
propagated (it is modelled as the emission alone). -/
theorem idle_fire_spec (config : Configuration) (git_remote_url : Option String)
    (ws : String) :
    idleFire config git_remote_url ws =
      (match config.idle.action with
        | .ClearActivity => IdleEmission.clear
        | .ChangeActivity =>
          IdleEmission.change (claimIdleFields config none ws)
            (if config.git_integration then git_remote_url else none)) := by
  cases h : config.idle.action <;>
    simp [idleFire, h, ActivityManager.build_idle_activity_fields,
      claimIdleFields]

/-- C6: `Rules::suitable` — in blacklist mode it accepts exactly the paths
not in the list; in whitelist mode exactly the paths in the list. -/
theorem rules_suitable_spec (r : Rules) (path : String) :
    (r.mode = RulesMode.Blacklist →
      (r.suitable path = true ↔ path ∉ r.paths)) ∧
    (r.mode = RulesMode.Whitelist →
      (r.suitable path = true ↔ path ∈ r.paths)) := by
  constructor <;> intro h <;> simp [Rules.suitable, h]

/-- Witness for C6: a blacklist containing `/a` accepts `/b` and a
whitelist containing `/a` accepts `/a`. -/
theorem rules_suitable_spec_witness :
    (Rules.suitable ⟨RulesMode.Blacklist, ["/a"]⟩ "/b" = true ↔
      "/b" ∉ (["/a"] : List String)) ∧
    (Rules.suitable ⟨RulesMode.Whitelist, ["/a"]⟩ "/a" = true ↔
      "/a" ∈ (["/a"] : List String)) :=
  ⟨(rules_suitable_spec ⟨RulesMode.Blacklist, ["/a"]⟩ "/b").1 rfl,
   (rules_suitable_spec ⟨RulesMode.Whitelist, ["/a"]⟩ "/a").2 rfl⟩

/-- C10: on a `Discord` value on which `create_client` was never called,
`connect`, `kill`, `clear_activity` and `change_activity` all return the
"Discord client not initialized" error (they are total functions, so no
panic); `connect` and `clear_activity` and `change_activity` leave the
state untouched (in particular `is_connected` stays `false` when it was
`false`, and the client cell stays unset), and `kill` only clears the
connected flag. -/
theorem discord_uninitialized_ops_spec (s : Discord) (env : IpcEnv) (n : Nat)
    (st de li lt si sm gu : Option String) (h : s.client = false) :
    s.connect env n =
      { discord := s, calls := n, log := [],
        result := .error clientNotInitialized } ∧
    s.kill env n =
      { discord := { s with connected := false }, calls := n, log := [],
        result := .error clientNotInitialized } ∧
    s.clear_activity env n =
      { discord := s, calls := n, log := [],
        result := .error clientNotInitialized } ∧
    s.change_activity st de li lt si sm gu env n =
      { discord := s, calls := n, log := [],
        result := .error clientNotInitialized } ∧
    (s.connect env n).discord.is_connected = s.is_connected ∧
    (s.kill env n).discord.is_connected = false := by
  refine ⟨?_, ?_, ?_, ?_, ?_, ?_⟩ <;>
    simp [Discord.connect, Discord.kill, Discord.clear_activity,
      Discord.change_activity, Discord.is_connected, h]

/-- Witness for C10: the four operations on `Discord::new()`'s state all
return the not-initialized error and leave the client cell unset. -/
theorem discord_uninitialized_ops_spec_witness :
    Discord.init.connect envAllOk 0 =
      { discord := Discord.init, calls := 0, log := [],
        result := .error clientNotInitialized } ∧
    Discord.init.kill envAllOk 0 =
      { discord := Discord.init, calls := 0, log := [],
        result := .error clientNotInitialized } ∧
    Discord.init.clear_activity envAllOk 0 =
      { discord := Discord.init, calls := 0, log := [],
        result := .error clientNotInitialized } ∧
    Discord.init.change_activity none none none none none none none
        envAllOk 0 =
      { discord := Discord.init, calls := 0, log := [],
        result := .error clientNotInitialized } := by
  have h := discord_uninitialized_ops_spec Discord.init envAllOk 0
    none none none none none none none rfl
  exact ⟨h.1, h.2.1, h.2.2.1, h.2.2.2.1⟩

/-- C5: with no document and no git branch, every placeholder whose source
is unavailable resolves to its literal placeholder name (never the empty
string), with `line_number` resolving to `"0"`; `replace` on any template
is exactly the chain of replacements with those values; and in general the
`line_number` substitution value is the stored 0-indexed value plus one
when present. The last conjunct shows a full evaluation on a template. -/
theorem placeholders_no_document_fallback (config : Configuration)
    (ws : String) :
    (Placeholders.new none config ws none).resolvedValues =
      [("filename", "filename"), ("workspace", ws),
       ("language", "language"), ("base_icons_url", config.base_icons_url),
       ("relative_file_path", "relative_file_path"),
       ("folder_and_file", "folder_and_file"),
       ("directory_name", "directory_name"),
       ("full_directory_name", "full_directory_name"),
       ("line_number", "0"), ("git_branch", "git_branch"),
       ("file_size", "file_size")] ∧
    (∀ t, (Placeholders.new none config ws none).replace t =
      [("filename", "filename"), ("workspace", ws),
       ("language", "language"), ("base_icons_url", config.base_icons_url),
       ("relative_file_path", "relative_file_path"),
       ("folder_and_file", "folder_and_file"),
       ("directory_name", "directory_name"),
       ("full_directory_name", "full_directory_name"),
       ("line_number", "0"), ("git_branch", "git_branch"),
       ("file_size", "file_size")].foldl
        (fun acc nv => replaceOne acc nv.1 nv.2) t) ∧
    (∀ p : Placeholders, ∀ k : Nat,
      ({ p with line_number := some k } : Placeholders).resolvedValues.find?
          (fun nv => nv.1 = "line_number") =
        some ("line_number", toString (k + 1))) ∧
    (∀ p : Placeholders,
      ({ p with line_number := none } : Placeholders).resolvedValues.find?
          (fun nv => nv.1 = "line_number") = some ("line_number", "0")) ∧
    (Placeholders.new none Configuration.defaultVal "proj" none).replace
        "\x7bfilename\x7d in \x7bgit_branch\x7d at line \x7bline_number\x7d"
      = "filename in git_branch at line 0" := by
  refine ⟨rfl, fun t => rfl, fun p k => rfl, fun p => rfl, by decide⟩

/-- C7: `format_file_size` renders sizes below 1024 as `"<n> byte"`
(singular exactly at 1) or `"<n> bytes"`, sizes in `[1024, 1048576)` as
kilobytes with exactly one decimal digit, and sizes at or above 1048576 as
megabytes with exactly one decimal digit; in particular `0 → "0 bytes"`,
`1 → "1 byte"`, `1024 → "1.0 KB"`, `1048576 → "1.0 MB"`. -/
theorem format_file_size_spec :
    format_file_size 0 = "0 bytes" ∧
    format_file_size 1 = "1 byte" ∧
    format_file_size 1024 = "1.0 KB" ∧
    format_file_size 1048576 = "1.0 MB" ∧
    (∀ n : Nat,
      (n < 1024 → format_file_size n =
        toString n ++ (if n = 1 then " byte" else " bytes")) ∧
      (1024 ≤ n → n < 1048576 →
        format_file_size n = formatOneDecimal n 1024 ++ " KB" ∧
        ∃ q d : Nat, d < 10 ∧
          formatOneDecimal n 1024 = toString q ++ "." ++ toString d) ∧
      (1048576 ≤ n →
        format_file_size n = formatOneDecimal n 1048576 ++ " MB" ∧
        ∃ q d : Nat, d < 10 ∧
          formatOneDecimal n 1048576 = toString q ++ "." ++ toString d)) := by
  refine ⟨by decide, by decide, by decide, by decide, ?_⟩
  intro n
  refine ⟨?_, ?_, ?_⟩
  · intro h
    have h2 : ¬1048576 ≤ n := by omega
    have h3 : ¬1024 ≤ n := by omega
    simp [format_file_size, h2, h3]
  · intro h1 h2
    have h3 : ¬1048576 ≤ n := by omega
    refine ⟨by simp [format_file_size, h3, h1], ?_⟩
    exact ⟨roundHalfEven (10 * n) 1024 / 10, roundHalfEven (10 * n) 1024 % 10,
      by omega, rfl⟩
  · intro h1
    refine ⟨by simp [format_file_size, h1], ?_⟩
    exact ⟨roundHalfEven (10 * n) 1048576 / 10,
      roundHalfEven (10 * n) 1048576 % 10, by omega, rfl⟩

/-- Witness for C7: concrete sizes hit the three branches of the
formatter. -/
theorem format_file_size_spec_witness :
    format_file_size 512 =
      toString 512 ++ (if 512 = 1 then " byte" else " bytes") ∧
    format_file_size 1536 = formatOneDecimal 1536 1024 ++ " KB" ∧
    format_file_size 10485760 = formatOneDecimal 10485760 1048576 ++ " MB" := by
  have h := format_file_size_spec
  exact ⟨(h.2.2.2.2 512).1 (by omega),
    ((h.2.2.2.2 1536).2.1 (by omega) (by omega)).1,
    ((h.2.2.2.2 10485760).2.2 (by omega)).1⟩

/-- A document whose path is the filesystem root `/` with workspace root
`/home`: it has no filename component, lies outside the workspace root,
and has no parent directory. -/
def docC9 : Document :=
  { path := ⟨[]⟩, workspace_root := ⟨["home"]⟩, line_number := none,
    fs_size := none }

/-- C9: when a document is present but a path-derived accessor fails,
`Placeholders::new` stores `Some("")` for that source via
`unwrap_or_default`, so `replace` substitutes the empty string for the
corresponding placeholder — not the literal placeholder name. The last
conjunct evaluates this on a concrete such document: both placeholders
vanish instead of echoing their names. -/
theorem placeholders_document_error_empty (d : Document)
    (config : Configuration) (ws : String) (gb : Option String) :
    ((d.get_filename).isOk = false →
      (Placeholders.new (some d) config ws gb).filename = some "") ∧
    ((d.get_relative_file_path).isOk = false →
      (Placeholders.new (some d) config ws gb).relative_file_path = some "") ∧
    ((d.get_folder_and_file).isOk = false →
      (Placeholders.new (some d) config ws gb).folder_and_file = some "") ∧
    ((d.get_directory_name).isOk = false →
      (Placeholders.new (some d) config ws gb).directory_name = some "") ∧
    ((d.get_full_directory_name).isOk = false →
      (Placeholders.new (some d) config ws gb).full_directory_name = some "") ∧
    (Placeholders.new (some docC9) Configuration.defaultVal "ws" none).replace
        "\x7bfilename\x7d|\x7brelative_file_path\x7d" = "|" := by
  refine ⟨?_, ?_, ?_, ?_, ?_, by decide⟩
  · intro h
    cases hf : d.get_filename with
    | ok v => rw [hf] at h; simp [Except.isOk, Except.toBool] at h
    | error e => simp [Placeholders.new, unwrapOrDefault, hf]
  · intro h
    cases hf : d.get_relative_file_path with
    | ok v => rw [hf] at h; simp [Except.isOk, Except.toBool] at h
    | error e => simp [Placeholders.new, unwrapOrDefault, hf]
  · intro h
    cases hf : d.get_folder_and_file with
    | ok v => rw [hf] at h; simp [Except.isOk, Except.toBool] at h
    | error e => simp [Placeholders.new, unwrapOrDefault, hf]
  · intro h
    cases hf : d.get_directory_name with
    | ok v => rw [hf] at h; simp [Except.isOk, Except.toBool] at h
    | error e => simp [Placeholders.new, unwrapOrDefault, hf]
  · intro h
    cases hf : d.get_full_directory_name with
    | ok v => rw [hf] at h; simp [Except.isOk, Except.toBool] at h
    | error e => simp [Placeholders.new, unwrapOrDefault, hf]

/-- Witness for C9: the root-path document stores the empty string for its
failing filename and relative-path sources. -/
theorem placeholders_document_error_empty_witness :
    (Placeholders.new (some docC9) Configuration.defaultVal "ws"
      none).filename = some "" ∧
    (Placeholders.new (some docC9) Configuration.defaultVal "ws"
      none).relative_file_path = some "" := by
  have h := placeholders_document_error_empty docC9 Configuration.defaultVal
    "ws" none
  exact ⟨h.1 rfl, h.2.1 rfl⟩

/-- C8: `Configuration::update_from_json` — a JSON value providing none of
the recognized top-level keys leaves the configuration unchanged (in
particular unknown keys are ignored); for each optional string template
field, an explicit `null` clears the field to `None` while a missing key
keeps its previous value. -/
theorem update_from_json_spec (c : Configuration) (j : JValue) :
    ((∀ k, k ∈ recognizedKeys → j.get k = none) →
      c.update_from_json j = c) ∧
    (j.get "state" = some .null →
      (c.update_from_json j).activity.state = none) ∧
    (j.get "state" = none →
      (c.update_from_json j).activity.state = c.activity.state) ∧
    (j.get "details" = some .null →
      (c.update_from_json j).activity.details = none) ∧
    (j.get "details" = none →
      (c.update_from_json j).activity.details = c.activity.details) ∧
    (j.get "large_image" = some .null →
      (c.update_from_json j).activity.large_image = none) ∧
    (j.get "large_image" = none →
      (c.update_from_json j).activity.large_image = c.activity.large_image) ∧
    (j.get "large_text" = some .null →
      (c.update_from_json j).activity.large_text = none) ∧
    (j.get "large_text" = none →
      (c.update_from_json j).activity.large_text = c.activity.large_text) ∧
    (j.get "small_image" = some .null →
      (c.update_from_json j).activity.small_image = none) ∧
    (j.get "small_image" = none →
      (c.update_from_json j).activity.small_image = c.activity.small_image) ∧
    (j.get "small_text" = some .null →
      (c.update_from_json j).activity.small_text = none) ∧
    (j.get "small_text" = none →
      (c.update_from_json j).activity.small_text = c.activity.small_text) := by
  constructor
  · intro h
    have h1 := h "application_id" (by simp [recognizedKeys])
    have h2 := h "base_icons_url" (by simp [recognizedKeys])
    have h3 := h "state" (by simp [recognizedKeys])
    have h4 := h "details" (by simp [recognizedKeys])
    have h5 := h "large_image" (by simp [recognizedKeys])
    have h6 := h "large_text" (by simp [recognizedKeys])
    have h7 := h "small_image" (by simp [recognizedKeys])
    have h8 := h "small_text" (by simp [recognizedKeys])
    have h9 := h "rules" (by simp [recognizedKeys])
    have h10 := h "idle" (by simp [recognizedKeys])
    have h11 := h "git_integration" (by simp [recognizedKeys])
    have h12 := h "languages" (by simp [recognizedKeys])
    simp [Configuration.update_from_json, Activity.update_from_json,
      update_optional_string_field, h1, h2, h3, h4, h5, h6, h7, h8, h9,
      h10, h11, h12]
  · refine ⟨?_, ?_, ?_, ?_, ?_, ?_, ?_, ?_, ?_, ?_, ?_, ?_⟩ <;> intro h <;>
      simp [Configuration.update_from_json, Activity.update_from_json,
        update_optional_string_field, JValue.isNull, h]

/-- Witness for C8: an object with only unrecognized keys leaves the
default configuration unchanged (so its template fields keep their
defaults), and an object with explicit `null`s clears all six template
fields. -/
theorem update_from_json_spec_witness :
    Configuration.defaultVal.update_from_json
        (.obj [("unknown_key", .str "x"), ("STATE", .null)]) =
      Configuration.defaultVal ∧
    (Configuration.defaultVal.update_from_json
        (.obj [("unknown_key", .str "x"),
          ("STATE", .null)])).activity.state =
      Configuration.defaultVal.activity.state ∧
    (Configuration.defaultVal.update_from_json
        (.obj [("state", .null), ("details", .null), ("large_image", .null),
          ("large_text", .null), ("small_image", .null),
          ("small_text", .null)])).activity.state = none ∧
    (Configuration.defaultVal.update_from_json
        (.obj [("state", .null), ("details", .null), ("large_image", .null),
          ("large_text", .null), ("small_image", .null),
          ("small_text", .null)])).activity.details = none ∧
    (Configuration.defaultVal.update_from_json
        (.obj [("state", .null), ("details", .null), ("large_image", .null),
          ("large_text", .null), ("small_image", .null),
          ("small_text", .null)])).activity.large_image = none ∧
    (Configuration.defaultVal.update_from_json
        (.obj [("state", .null), ("details", .null), ("large_image", .null),
          ("large_text", .null), ("small_image", .null),
          ("small_text", .null)])).activity.large_text = none ∧
    (Configuration.defaultVal.update_from_json
        (.obj [("state", .null), ("details", .null), ("large_image", .null),
          ("large_text", .null), ("small_image", .null),
          ("small_text", .null)])).activity.small_image = none ∧
    (Configuration.defaultVal.update_from_json
        (.obj [("state", .null), ("details", .null), ("large_image", .null),
          ("large_text", .null), ("small_image", .null),
          ("small_text", .null)])).activity.small_text = none := by
  have hu := update_from_json_spec Configuration.defaultVal
    (.obj [("unknown_key", .str "x"), ("STATE", .null)])
  have hn := update_from_json_spec Configuration.defaultVal
    (.obj [("state", .null), ("details", .null), ("large_image", .null),
      ("large_text", .null), ("small_image", .null), ("small_text", .null)])
  refine ⟨hu.1 ?_, hu.2.2.1 rfl, hn.2.1 rfl, hn.2.2.2.1 rfl,
    hn.2.2.2.2.2.1 rfl, hn.2.2.2.2.2.2.2.1 rfl,
    hn.2.2.2.2.2.2.2.2.2.1 rfl, hn.2.2.2.2.2.2.2.2.2.2.2.1 rfl⟩
  intro k hk
  fin_cases hk <;> rfl
